import Mathlib

/-!
Verification of the mailroom task-execution core against its specification.

Shallow embedding of the relevant Go source:
  * `core/tasks/handler/worker.go` — the per-contact event drain loop
    (`handleContactEvent`, `addHandleTask`, `addContactTask`) and the timed
    event handler (`handleTimedEvent`);
  * `core/tasks/starts/worker.go` — the flow-start fan-out
    (`handleFlowStart`, `CreateFlowBatches`);
  * `core/models/runs.go` — the exit/interrupt SQL updates
    (`ExitSessions`, `InterruptContactRuns`);
  * the message-sending post-commit hook (`SendMessagesHook.Apply`).

Redis and SQL effects are modelled as pure state transformations: the
per-contact list and the global handler queue are Lean lists, SQL `UPDATE`
statements become row-wise `List.map` transformations, and fallible
sub-handlers / courier calls are boolean oracles supplied as parameters.
Timestamps are `Nat`.
-/

namespace Mailroom

/-- Contact ids (64-bit integers in the source; modelled as `Nat`). -/
abbrev ContactID := Nat

/-- Org ids. -/
abbrev OrgID := Nat

/-- Session ids. -/
abbrev SessionID := Nat

/-- Flow run ids. -/
abbrev FlowRunID := Nat

/-! ### Per-contact event loop (`core/tasks/handler/worker.go`) -/

namespace Handler

/-- One envelope popped from the per-contact list `c:{org}:{contact}`.
Mirrors `queue.Task` as used by `handleContactEvent`: a type tag, an opaque
payload (abstracted to a `Nat`), and the envelope's `ErrorCount`.  The
sub-handlers receive only the type and payload — `ErrorCount` is envelope
metadata they never see. -/
structure ContactEvent where
  eventType : String
  payload : Nat
  errorCount : Nat
  deriving DecidableEq, Repr

/-- The `HandleEventTask` summary task placed on the global handler queue
(`addContactTask` in the source): it carries only the org and contact id,
never the event payload. -/
structure HandleEventTask where
  orgID : OrgID
  contactID : ContactID
  deriving DecidableEq, Repr

/-- Result of one invocation of the drain loop of `handleContactEvent`
(worker.go lines 140-235), after the contact lock was acquired. -/
structure DrainResult where
  /-- What remains on the per-contact list when the invocation returns. -/
  remaining : List ContactEvent
  /-- The envelopes the typed sub-handler was invoked on, in order. -/
  invoked : List ContactEvent
  /-- Envelopes logged as permanent failures and dropped. -/
  dropped : List ContactEvent
  /-- Whether a fresh summary task was pushed on the global handler queue
  (`addHandleTask` with `front = true` also calls `addContactTask`). -/
  summaryAdded : Bool
  deriving DecidableEq, Repr

/-- The drain loop of `handleContactEvent` (worker.go lines 142-235): pop the
head of the per-contact list; dispatch to the typed sub-handler (modelled by
the oracle `subHandle : eventType → payload → Bool`, `true` = success); on
success continue with the rest; on error increment the envelope's
`ErrorCount`, and if it is `< 3` re-push the envelope at the head
(`addHandleTask … front=true`, which also enqueues a summary task) and return
nil, else log a permanent failure, drop the envelope and return nil. -/
def drainContactEvents (subHandle : String → Nat → Bool) :
    List ContactEvent → DrainResult
  | [] => ⟨[], [], [], false⟩
  | e :: rest =>
    if subHandle e.eventType e.payload then
      let r := drainContactEvents subHandle rest
      { r with invoked := e :: r.invoked }
    else
      let e2 := { e with errorCount := e.errorCount + 1 }
      if e2.errorCount < 3 then ⟨e2 :: rest, [e], [], true⟩
      else ⟨rest, [e], [e2], false⟩

/-- Cumulative outcome of repeatedly running `handle_contact_event` tasks for
one contact until its per-contact list empties (each requeued envelope also
enqueued a summary task, so another drain invocation follows). `fuel` bounds
the number of task invocations. -/
def processContactTasks (subHandle : String → Nat → Bool) :
    Nat → List ContactEvent → List ContactEvent × List ContactEvent × List ContactEvent
  | 0, q => ([], [], q)
  | fuel + 1, q =>
    let r := drainContactEvents subHandle q
    if r.remaining.isEmpty then (r.invoked, r.dropped, [])
    else
      let rest := processContactTasks subHandle fuel r.remaining
      (r.invoked ++ rest.1, r.dropped ++ rest.2.1, rest.2.2)

/-- Modelled from the spec: `queue.AddTask` (§4.2 Enqueue) with priority
`default` appends the payload at the tail of the queue.  The queue package
itself is not under `src/`. -/
def addTaskDefault (q : List HandleEventTask) (t : HandleEventTask) :
    List HandleEventTask :=
  q ++ [t]

/-- State touched by `handleContactEvent` for one (org, contact): the
per-contact event list `c:{org}:{contact}` and the global handler queue. -/
structure HandlerState where
  contactEvents : List ContactEvent
  handlerQueue : List HandleEventTask
  deriving DecidableEq, Repr

/-- `addContactTask` (worker.go lines 65-75): push a `HandleEventTask`
summary task for the contact on the global handler queue with default
priority.  It does not touch the per-contact event list. -/
def addContactTask (st : HandlerState) (orgID : OrgID) (contactID : ContactID) :
    HandlerState :=
  { st with handlerQueue := addTaskDefault st.handlerQueue ⟨orgID, contactID⟩ }

/-- `handleContactEvent` (worker.go lines 107-236).  `lockAcquired` models
the outcome of `locker.GrabLock` with TTL 5 min / max wait 10 s: when the
lock is not acquired the handler re-enqueues a summary task via
`addContactTask` and returns nil; otherwise it drains the per-contact list.
The returned `Bool` is `true` when the handler returns nil (success). -/
def handleContactEvent (subHandle : String → Nat → Bool) (lockAcquired : Bool)
    (orgID : OrgID) (contactID : ContactID) (st : HandlerState) :
    HandlerState × Bool :=
  if !lockAcquired then
    (addContactTask st orgID contactID, true)
  else
    let r := drainContactEvents subHandle st.contactEvents
    ({ contactEvents := r.remaining,
       handlerQueue :=
         if r.summaryAdded then addTaskDefault st.handlerQueue ⟨orgID, contactID⟩
         else st.handlerQueue },
     true)

end Handler

/-! ### Timed events (`handleTimedEvent`, worker.go lines 239-327) -/

namespace Timed

/-- Event type tag constants of `core/tasks/handler/worker.go`. -/
def ExpirationEventType : String := "expiration_event"

/-- Event type tag for timeouts. -/
def TimeoutEventType : String := "timeout_event"

/-- Contact status as checked by `handleTimedEvent`
(`contacts[0].Status() != models.ContactStatusActive`). -/
inductive ContactStatus where
  | active
  | blocked
  | stopped
  | archived
  deriving DecidableEq, Repr

/-- The fields of the active session that `handleTimedEvent` inspects:
`session.ID()` and `session.TimeoutOn()`. -/
structure SessionInfo where
  id : SessionID
  timeoutOn : Option Nat
  deriving DecidableEq, Repr

/-- The database reads performed by `handleTimedEvent`, as one record:
`LoadContacts` (here: `none` = contact deleted), `ActiveSessionForContact`,
and `RunExpiration event.RunID` (`none` = run no longer active, per the
`is_active = TRUE` filter of `RunExpiration` in runs.go). -/
structure TimedDB where
  contact : Option ContactStatus
  activeSession : Option SessionInfo
  runExpiresOn : Option Nat
  deriving DecidableEq, Repr

/-- The `TimedEvent` task payload `{org_id, contact_id, session_id, run_id,
time}`. -/
structure TimedEvent where
  orgID : OrgID
  contactID : ContactID
  sessionID : SessionID
  runID : FlowRunID
  time : Nat
  deriving DecidableEq, Repr

/-- Outcome of `handleTimedEvent`: `ignored` models `return nil` on a failed
check (success, no engine call), the `resumed*` constructors model reaching
`runner.ResumeFlow` with the corresponding resume kind, and `errored` models
the unknown-event-type error return. -/
inductive TimedResult where
  | ignored
  | resumedExpiration
  | resumedTimeout
  | errored
  deriving DecidableEq, Repr

/-- `handleTimedEvent` (worker.go lines 239-327): ignore if the contact is
deleted or not active; ignore if there is no active session or its id
differs from the event's; for an expiration event, ignore if the run's
`expires_on` is absent (run ended) or differs from the event time; for a
timeout event, ignore if the session's `timeout_on` is absent or differs
from the event time; otherwise resume the engine. -/
def handleTimedEvent (db : TimedDB) (eventType : String) (event : TimedEvent) :
    TimedResult :=
  match db.contact with
  | none => .ignored
  | some status =>
    if status ≠ ContactStatus.active then .ignored
    else
      match db.activeSession with
      | none => .ignored
      | some session =>
        if session.id ≠ event.sessionID then .ignored
        else if eventType = ExpirationEventType then
          match db.runExpiresOn with
          | none => .ignored
          | some expiration =>
            if ¬ expiration = event.time then .ignored
            else .resumedExpiration
        else if eventType = TimeoutEventType then
          match session.timeoutOn with
          | none => .ignored
          | some timeout =>
            if ¬ timeout = event.time then .ignored
            else .resumedTimeout
        else .errored

end Timed

/-! ### Flow start fan-out (`core/tasks/starts/worker.go`) -/

/-- `models.FlowType` is a string type (`models/flows.go` line 19). -/
abbrev FlowType := String

/-- The voice flow type `"V"` (`IVRFlow = FlowType("V")` in `models/flows.go`;
spec §6 gives `flow_type` as `"M" | "V" | "B"`). -/
def FlowTypeVoice : FlowType := "V"

/-- The messaging flow type `"M"`. -/
def FlowTypeMessaging : FlowType := "M"

namespace Starts

/-- `startBatchSize` (worker.go line 28). -/
def startBatchSize : Nat := 100

/-- Task type tags of the two batch task kinds (`queue.StartFlowBatch`,
`queue.StartIVRFlowBatch`; string values from spec §3's closed tag set). -/
def StartFlowBatchType : String := "start_flow_batch"

/-- Task type tag for IVR batch starts. -/
def StartIVRFlowBatchType : String := "start_ivr_flow_batch"

/-- The two concrete queues (`queue.HandlerQueue`, `queue.BatchQueue`). -/
inductive QueueName where
  | handler
  | batch
  deriving DecidableEq, Repr

/-- Task priority (`queue.DefaultPriority`, `queue.HighPriority`). -/
inductive Priority where
  | low
  | high
  deriving DecidableEq, Repr

/-- `queue.DefaultPriority` — batch tasks are enqueued with it
(worker.go line 168). -/
def DefaultPriority : Priority := Priority.low

/-- The fields of `models.FlowStart` that `CreateFlowBatches` reads after the
target set has been resolved: `ID()`, `OrgID()`, `FlowType()`. -/
structure FlowStart where
  id : Nat
  orgID : OrgID
  flowType : FlowType
  deriving DecidableEq, Repr

/-- Modelled from the spec: `start.CreateBatch(contacts, last, total)` builds
a flow start batch — start reference, a slice of ≤ 100 contact ids, the
last-batch flag and the total contact count (spec §3 "Flow start batch");
the function body is not under `src/`. -/
structure FlowStartBatch where
  startID : Nat
  contactIDs : List ContactID
  isLast : Bool
  totalContacts : Nat
  deriving DecidableEq, Repr

/-- `start.CreateBatch(contacts, last, len(contactIDs))`. -/
def CreateBatch (start : FlowStart) (contacts : List ContactID) (last : Bool)
    (totalContacts : Nat) : FlowStartBatch :=
  ⟨start.id, contacts, last, totalContacts⟩

/-- One task enqueued by `queue.AddTask(rc, q, taskType, orgID, batch,
queue.DefaultPriority)` (worker.go line 168). -/
structure QueuedBatchTask where
  queue : QueueName
  taskType : String
  orgID : OrgID
  batch : FlowStartBatch
  priority : Priority
  deriving DecidableEq, Repr

/-- Flow start status (spec §3: `pending | starting | complete | failed`). -/
inductive StartStatus where
  | pending
  | starting
  | complete
  | failed
  deriving DecidableEq, Repr

/-- The flow start row fields the pipeline writes: status and contact count. -/
structure StartState where
  status : StartStatus
  contactCount : Nat
  deriving DecidableEq, Repr

/-- Modelled from the spec: `models.MarkStartStarted` marks the start
`starting` and records the final contact count (spec §4.7 step 5); its body
is not under `src/`. -/
def MarkStartStarted (s : StartState) (contactCount : Nat) : StartState :=
  ⟨StartStatus.starting, contactCount⟩

/-- Modelled from the spec: `models.MarkStartComplete` marks the start
`complete` (spec §4.7 step 8, scenario S1); its body is not under `src/`. -/
def MarkStartComplete (s : StartState) : StartState :=
  { s with status := StartStatus.complete }

/-- Modelled from the spec: `models.MarkStartFailed` marks the start
`failed` (spec §7 "User-input error"); its body is not under `src/`. -/
def MarkStartFailed (s : StartState) : StartState :=
  { s with status := StartStatus.failed }

/-- The batching loop of `CreateFlowBatches` (worker.go lines 165-187):
`contacts` is the in-progress buffer; when it already holds
`startBatchSize` ids the buffer is flushed as a non-last batch *before*
appending, and whatever remains at the end is flushed as the last batch if
non-empty. -/
def chunkContacts (contacts : List ContactID) :
    List ContactID → List (List ContactID × Bool)
  | [] => if 0 < contacts.length then [(contacts, true)] else []
  | c :: rest =>
    if contacts.length = startBatchSize then
      (contacts, false) :: chunkContacts [c] rest
    else
      chunkContacts (contacts ++ [c]) rest

/-- The enqueueing phase of `CreateFlowBatches` for a non-empty final contact
id set (worker.go lines 153-189): queue is `batch` unless there are at most
two contacts, task type is `start_ivr_flow_batch` exactly for voice flows,
and every batch is enqueued with default priority.  `contactIDs` is the
deduplicated contact id set in the Go map's iteration order. -/
def createFlowBatchTasks (start : FlowStart) (contactIDs : List ContactID) :
    List QueuedBatchTask :=
  let q := if contactIDs.length ≤ 2 then QueueName.handler else QueueName.batch
  let taskType :=
    if start.flowType = FlowTypeVoice then StartIVRFlowBatchType
    else StartFlowBatchType
  (chunkContacts [] contactIDs).map fun b =>
    { queue := q, taskType := taskType, orgID := start.orgID,
      batch := CreateBatch start b.1 b.2 contactIDs.length,
      priority := DefaultPriority }

/-- `CreateFlowBatches` after the contact set has been resolved (worker.go
lines 138-189): mark the start `starting` with the final count; if the set is
empty mark it `complete` and enqueue nothing; otherwise enqueue the batches.
Returns the sequence of flow-start row writes and the enqueued tasks. -/
def CreateFlowBatches (start : FlowStart) (s : StartState)
    (contactIDs : List ContactID) : List StartState × List QueuedBatchTask :=
  let s1 := MarkStartStarted s contactIDs.length
  if contactIDs.length = 0 then ([s1, MarkStartComplete s1], [])
  else ([s1], createFlowBatchTasks start contactIDs)

/-- An error escaping `CreateFlowBatches`, classified the way
`handleFlowStart` classifies it via `contactql.IsQueryError`: a user
contact-query error or an infrastructure error. -/
structure StartError where
  isQueryError : Bool
  deriving DecidableEq, Repr

/-- `handleFlowStart` (worker.go lines 38-64), given the outcome of
`CreateFlowBatches`: on success return nil; on any error call
`models.MarkStartFailed` and then return nil exactly when the error is a
user query error, else return the error.  Result: (final start row state,
enqueued tasks, returned error). -/
def handleFlowStart (s : StartState)
    (outcome : Except StartError (List StartState × List QueuedBatchTask)) :
    StartState × List QueuedBatchTask × Option StartError :=
  match outcome with
  | Except.ok (writes, tasks) => (writes.getLastD s, tasks, none)
  | Except.error e =>
    (MarkStartFailed s, [], if e.isQueryError then none else some e)

end Starts

/-! ### Run/session exit and interruption (`core/models/runs.go`) -/

namespace Runs

/-- Run statuses (runs.go lines 23-30). -/
abbrev RunStatus := String

/-- `RunStatusActive = "A"`. -/
def RunStatusActive : RunStatus := "A"

/-- `RunStatusWaiting = "W"`. -/
def RunStatusWaiting : RunStatus := "W"

/-- `RunStatusCompleted = "C"`. -/
def RunStatusCompleted : RunStatus := "C"

/-- `RunStatusExpired = "X"`. -/
def RunStatusExpired : RunStatus := "X"

/-- `RunStatusInterrupted = "I"`. -/
def RunStatusInterrupted : RunStatus := "I"

/-- `RunStatusFailed = "F"`. -/
def RunStatusFailed : RunStatus := "F"

/-- Exit types (runs.go lines 43-48). -/
abbrev ExitType := String

/-- `ExitInterrupted = "I"`. -/
def ExitInterrupted : ExitType := "I"

/-- `ExitCompleted = "C"`. -/
def ExitCompleted : ExitType := "C"

/-- `ExitExpired = "E"`. -/
def ExitExpired : ExitType := "E"

/-- Session statuses: a session is `waiting` (`'W'`, the value tested by
`exitSessionsSQL` and `interruptContactSessionsSQL`) or terminal
(spec §3 "Session"). -/
abbrev SessionStatus := String

/-- The waiting session status `'W'` (runs.go lines 277 and 330). -/
def SessionStatusWaiting : SessionStatus := "W"

/-- The interrupted session status `'I'` written by
`interruptContactSessionsSQL` (runs.go line 327). -/
def SessionStatusInterrupted : SessionStatus := "I"

/-- Modelled from the spec: `exitToRunStatusMap` (used at runs.go line 229,
defined in a file not under `src/`) maps each exit type to the terminal run
status of the same kind; absent keys are "unknown exit type" errors. -/
def exitToRunStatusMap : ExitType → Option RunStatus
  | "I" => some RunStatusInterrupted
  | "C" => some RunStatusCompleted
  | "E" => some RunStatusExpired
  | _ => none

/-- Modelled from the spec: `exitToSessionStatusMap` (used at runs.go line
228, defined in a file not under `src/`) maps each exit type to the terminal
session status of the same kind. -/
def exitToSessionStatusMap : ExitType → Option SessionStatus
  | "I" => some "I"
  | "C" => some "C"
  | "E" => some "X"
  | _ => none

/-- A `flows_flowrun` row, restricted to the columns the exit/interrupt SQL
reads or writes (`flowType` is the joined `flows_flow.flow_type` of the
run's flow, used by `interruptContactRunsSQL`). -/
structure FlowRunRow where
  id : FlowRunID
  sessionID : SessionID
  contactID : ContactID
  flowType : FlowType
  isActive : Bool
  status : RunStatus
  exitType : Option ExitType
  exitedOn : Option Nat
  modifiedOn : Nat
  deriving DecidableEq, Repr

/-- A `flows_flowsession` row, restricted to the columns the exit/interrupt
SQL reads or writes. -/
structure FlowSessionRow where
  id : SessionID
  contactID : ContactID
  sessionType : FlowType
  status : SessionStatus
  endedOn : Option Nat
  deriving DecidableEq, Repr

/-- `exitSessionRunsSQL` (runs.go lines 256-267) applied to one row: update
only rows whose session is in the list *and* which are still
`is_active = TRUE`; `$2` = exit type, `$3` = now, `$4` = run status,
`modified_on = NOW()` (modelled by `dbNow`). -/
def exitSessionRunsRow (sessionIDs : List SessionID) (exitType : ExitType)
    (now dbNow : Nat) (runStatus : RunStatus) (r : FlowRunRow) : FlowRunRow :=
  if r.sessionID ∈ sessionIDs ∧ r.isActive = true then
    { r with
      isActive := false
      exitType := some exitType
      exitedOn := some now
      status := runStatus
      modifiedOn := dbNow }
  else r

/-- `exitSessionsSQL` (runs.go lines 269-278) applied to one row: update only
rows whose id is in the list *and* whose status is still `'W'`. -/
def exitSessionsRow (sessionIDs : List SessionID) (now : Nat)
    (sessionStatus : SessionStatus) (s : FlowSessionRow) : FlowSessionRow :=
  if s.id ∈ sessionIDs ∧ s.status = SessionStatusWaiting then
    { s with endedOn := some now, status := sessionStatus }
  else s

/-- `ExitSessions` (runs.go lines 221-254): no-op on an empty id list; error
on an unknown exit type; otherwise run the two UPDATE statements. -/
def ExitSessions (runs : List FlowRunRow) (sessions : List FlowSessionRow)
    (sessionIDs : List SessionID) (exitType : ExitType) (now dbNow : Nat) :
    Except String (List FlowRunRow × List FlowSessionRow) :=
  if sessionIDs.isEmpty then Except.ok (runs, sessions)
  else
    match exitToRunStatusMap exitType with
    | none => Except.error "unknown exit type"
    | some runStatus =>
      let sessionStatus := (exitToSessionStatusMap exitType).getD ""
      Except.ok
        (runs.map (exitSessionRunsRow sessionIDs exitType now dbNow runStatus),
          sessions.map (exitSessionsRow sessionIDs now sessionStatus))

/-- `interruptContactRunsSQL` (runs.go lines 300-321) applied to one row:
update only runs of the given contacts whose flow has the given type and
which are still `is_active = TRUE`; sets `exit_type = 'I'`, `status = 'I'`. -/
def interruptContactRunsRow (sessionType : FlowType)
    (contactIDs : List ContactID) (now dbNow : Nat) (r : FlowRunRow) :
    FlowRunRow :=
  if r.contactID ∈ contactIDs ∧ r.isActive = true ∧ r.flowType = sessionType then
    { r with
      isActive := false
      exitedOn := some now
      exitType := some ExitInterrupted
      status := RunStatusInterrupted
      modifiedOn := dbNow }
  else r

/-- `interruptContactSessionsSQL` (runs.go lines 323-331) applied to one row:
update only sessions of the given type and contacts whose status is still
`'W'`; sets `status = 'I'`. -/
def interruptContactSessionsRow (sessionType : FlowType)
    (contactIDs : List ContactID) (now : Nat) (s : FlowSessionRow) :
    FlowSessionRow :=
  if s.sessionType = sessionType ∧ s.contactID ∈ contactIDs ∧
      s.status = SessionStatusWaiting then
    { s with status := SessionStatusInterrupted, endedOn := some now }
  else s

/-- `InterruptContactRuns` (runs.go lines 280-298): no-op on an empty contact
list; otherwise run the two UPDATE statements. -/
def InterruptContactRuns (runs : List FlowRunRow)
    (sessions : List FlowSessionRow) (sessionType : FlowType)
    (contactIDs : List ContactID) (now dbNow : Nat) :
    List FlowRunRow × List FlowSessionRow :=
  if contactIDs.isEmpty then (runs, sessions)
  else
    (runs.map (interruptContactRunsRow sessionType contactIDs now dbNow),
      sessions.map (interruptContactSessionsRow sessionType contactIDs now))

end Runs

/-! ### Message sending hook (`SendMessagesHook.Apply`) -/

namespace Hooks

/-- The message fields `SendMessagesHook.Apply` inspects: whether the message
has a topup (`msg.TopupID() != models.NilTopupID`), whether it has a channel,
and whether that channel is an Android channel. -/
structure Msg where
  id : Nat
  hasTopup : Bool
  hasChannel : Bool
  channelAndroid : Bool
  deriving DecidableEq, Repr

/-- One entry of the `sessions` map passed to `Apply`: a session and the
messages registered for it. -/
structure SessionMsgs where
  sessionID : SessionID
  msgs : List Msg
  deriving DecidableEq, Repr

/-- The per-message walk of `Apply` (part_006 lines 46-60): a message with a
topup and a non-Android channel goes to `courierMsgs`; one with a topup and
an Android channel only marks its channel for sync; one lacking a topup or a
channel goes to `pending`.  Returns `(courierMsgs, pending additions)` in
walk order. -/
def splitMsgs : List Msg → List Msg × List Msg
  | [] => ([], [])
  | m :: rest =>
    let r := splitMsgs rest
    if m.hasTopup && m.hasChannel then
      if m.channelAndroid then r
      else (m :: r.1, r.2)
    else (r.1, m :: r.2)

/-- The body of `Apply`'s session loop (part_006 lines 44-84): gather the
session's courier messages; if there are any, queue them to courier
(`queueOk` tells whether `courier.QueueMessages` succeeded), and on a
queueing error move them onto the shared `pending` list instead.  The
accumulator is (successfully queued batches, pending list). -/
def applySessionStep (queueOk : SessionID → Bool)
    (acc : List (SessionID × List Msg) × List Msg) (s : SessionMsgs) :
    List (SessionID × List Msg) × List Msg :=
  let split := splitMsgs s.msgs
  let pending := acc.2 ++ split.2
  if split.1.isEmpty then (acc.1, pending)
  else if queueOk s.sessionID then (acc.1 ++ [(s.sessionID, split.1)], pending)
  else (acc.1, pending ++ split.1)

/-- `SendMessagesHook.Apply` (part_006 lines 33-136): loop over the sessions,
then mark everything on the `pending` list as pending in the database
(`MarkMessagesPending`; its own failure is only logged).  `Apply` always
returns nil — the `Option String` error component is always `none`. -/
def SendMessagesHookApply (queueOk : SessionID → Bool)
    (sessions : List SessionMsgs) :
    (List (SessionID × List Msg) × List Msg) × Option String :=
  (sessions.foldl (applySessionStep queueOk) ([], []), none)

end Hooks

/-! ### Theorems -/

open Handler

/-- C1: for a contact event task whose sub-handler fails deterministically the
drain loop invokes that handler at most 3 times in total; each failure
increments the envelope's error count, the event is re-queued only while the
incremented count is `< 3`, and at 3 it is logged as a permanent failure and
dropped, never retried again. -/
theorem C1_retry_bound (subHandle : String → Nat → Bool) (e : Handler.ContactEvent)
    (fuel : Nat) (hfail : subHandle e.eventType e.payload = false)
    (h0 : e.errorCount = 0) :
    (Handler.processContactTasks subHandle fuel [e]).1.length ≤ 3 ∧
    (3 ≤ fuel →
      Handler.processContactTasks subHandle fuel [e] =
        ([e, { e with errorCount := 1 }, { e with errorCount := 2 }],
          [{ e with errorCount := 3 }], [])) := by
  obtain ⟨t, p, c⟩ := e
  simp only at hfail h0
  subst h0
  constructor
  · match fuel with
    | 0 => simp [Handler.processContactTasks]
    | 1 => simp [Handler.processContactTasks, Handler.drainContactEvents, hfail]
    | 2 => simp [Handler.processContactTasks, Handler.drainContactEvents, hfail]
    | n + 3 =>
      simp [Handler.processContactTasks, Handler.drainContactEvents, hfail]
  · intro hfuel
    obtain ⟨n, rfl⟩ := Nat.exists_eq_add_of_le hfuel
    simp [Handler.processContactTasks, Handler.drainContactEvents, hfail,
      Nat.add_comm 3 n]

/-- Witness for C1 at a concrete failing handler and event. -/
theorem C1_retry_bound_witness :
    (Handler.processContactTasks (fun _ _ => false) 3
        [⟨"msg_event", 0, 0⟩]).1.length ≤ 3 ∧
    (3 ≤ 3 →
      Handler.processContactTasks (fun _ _ => false) 3 [⟨"msg_event", 0, 0⟩] =
        ([⟨"msg_event", 0, 0⟩, ⟨"msg_event", 0, 1⟩, ⟨"msg_event", 0, 2⟩],
          [⟨"msg_event", 0, 3⟩], [])) :=
  C1_retry_bound (fun _ _ => false) ⟨"msg_event", 0, 0⟩ 3 rfl rfl

/-- C5: when the contact lock is not acquired within the 10-second wait,
`handleContactEvent` appends a fresh summary task for the same (org, contact)
to the handler queue, leaves the per-contact event list untouched, and
returns success. -/
theorem C5_lock_backoff (subHandle : String → Nat → Bool) (orgID : OrgID)
    (contactID : ContactID) (st : Handler.HandlerState) :
    Handler.handleContactEvent subHandle false orgID contactID st =
      ({ st with handlerQueue := st.handlerQueue ++ [⟨orgID, contactID⟩] }, true) :=
  rfl

/-- C7 counterexample: with a sub-handler that fails on payload 0 and a
second event queued behind the failing one, the drain invocation invokes the
sub-handler exactly once — the re-queued envelope (error count 1) is *not*
retried within the same drain loop; it is left at the head of the
per-contact list and a fresh summary task is enqueued instead. -/
theorem C7_counterexample :
    ({ eventType := "msg_event", payload := 0, errorCount := 1 } :
        Handler.ContactEvent) ∉
      (Handler.drainContactEvents (fun _ p => p != 0)
        [⟨"msg_event", 0, 0⟩, ⟨"msg_event", 1, 0⟩]).invoked ∧
    (Handler.drainContactEvents (fun _ p => p != 0)
        [⟨"msg_event", 0, 0⟩, ⟨"msg_event", 1, 0⟩]).invoked =
      [⟨"msg_event", 0, 0⟩] ∧
    (Handler.drainContactEvents (fun _ p => p != 0)
        [⟨"msg_event", 0, 0⟩, ⟨"msg_event", 1, 0⟩]).remaining =
      [⟨"msg_event", 0, 1⟩, ⟨"msg_event", 1, 0⟩] ∧
    (Handler.drainContactEvents (fun _ p => p != 0)
        [⟨"msg_event", 0, 0⟩, ⟨"msg_event", 1, 0⟩]).summaryAdded = true := by
  refine ⟨?_, rfl, rfl, rfl⟩
  decide

/-- C7 amended: on a transient failure with incremented error count `< 3`,
the envelope is re-pushed to the head of the per-contact list ahead of any
later events, the drain loop returns immediately (enqueuing a fresh summary
task), and the re-queued envelope is the first one the sub-handler is invoked
on in the next drain invocation. -/
theorem C7_head_requeue (subHandle : String → Nat → Bool)
    (e : Handler.ContactEvent) (rest : List Handler.ContactEvent)
    (hfail : subHandle e.eventType e.payload = false)
    (hcnt : e.errorCount + 1 < 3) :
    Handler.drainContactEvents subHandle (e :: rest) =
      ⟨{ e with errorCount := e.errorCount + 1 } :: rest, [e], [], true⟩ ∧
    (Handler.drainContactEvents subHandle
        ({ e with errorCount := e.errorCount + 1 } :: rest)).invoked.head? =
      some { e with errorCount := e.errorCount + 1 } := by
  constructor
  · simp [Handler.drainContactEvents, hfail, hcnt]
  · simp only [Handler.drainContactEvents, hfail, Bool.false_eq_true, if_false]
    split <;> simp

/-- Helper: characterization of when an expiration event resumes the engine. -/
theorem timed_expiration_iff (db : Timed.TimedDB) (event : Timed.TimedEvent) :
    Timed.handleTimedEvent db Timed.ExpirationEventType event =
        Timed.TimedResult.resumedExpiration ↔
      db.contact = some Timed.ContactStatus.active ∧
      ∃ s, db.activeSession = some s ∧ s.id = event.sessionID ∧
        db.runExpiresOn = some event.time := by
  obtain ⟨c, as, re⟩ := db
  rcases c with _ | status <;> rcases as with _ | ⟨sid, sto⟩ <;>
    rcases re with _ | exp <;>
      simp [Timed.handleTimedEvent] <;> split_ifs <;> simp_all

/-- Helper: characterization of when a timeout event resumes the engine. -/
theorem timed_timeout_iff (db : Timed.TimedDB) (event : Timed.TimedEvent) :
    Timed.handleTimedEvent db Timed.TimeoutEventType event =
        Timed.TimedResult.resumedTimeout ↔
      db.contact = some Timed.ContactStatus.active ∧
      ∃ s, db.activeSession = some s ∧ s.id = event.sessionID ∧
        s.timeoutOn = some event.time := by
  obtain ⟨c, as, re⟩ := db
  rcases c with _ | status <;> rcases as with _ | ⟨sid, _ | timeout⟩ <;>
    rcases re with _ | exp <;>
      simp [Timed.handleTimedEvent, Timed.TimeoutEventType,
        Timed.ExpirationEventType] <;> split_ifs <;> simp_all

/-- Helper: an expiration event either is ignored or resumes the engine. -/
theorem timed_expiration_cases (db : Timed.TimedDB) (event : Timed.TimedEvent) :
    Timed.handleTimedEvent db Timed.ExpirationEventType event =
        Timed.TimedResult.ignored ∨
      Timed.handleTimedEvent db Timed.ExpirationEventType event =
        Timed.TimedResult.resumedExpiration := by
  obtain ⟨c, as, re⟩ := db
  rcases c with _ | status <;> rcases as with _ | ⟨sid, sto⟩ <;>
    rcases re with _ | exp <;>
      simp [Timed.handleTimedEvent] <;> split_ifs <;> simp_all

/-- Helper: a timeout event either is ignored or resumes the engine. -/
theorem timed_timeout_cases (db : Timed.TimedDB) (event : Timed.TimedEvent) :
    Timed.handleTimedEvent db Timed.TimeoutEventType event =
        Timed.TimedResult.ignored ∨
      Timed.handleTimedEvent db Timed.TimeoutEventType event =
        Timed.TimedResult.resumedTimeout := by
  obtain ⟨c, as, re⟩ := db
  rcases c with _ | status <;> rcases as with _ | ⟨sid, _ | timeout⟩ <;>
    rcases re with _ | exp <;>
      simp [Timed.handleTimedEvent, Timed.TimeoutEventType,
        Timed.ExpirationEventType] <;> split_ifs <;> simp_all

/-- C2: a timed event is a no-op (success) when the contact's active session
is absent or has a different id; an expiration event additionally when the
run's `expires_on` is absent or differs from the event time; a timeout event
additionally when the session's `timeout_on` is absent or differs from the
event time; the engine is resumed exactly when every check matches. -/
theorem C2_timed_event_checks (db : Timed.TimedDB) (event : Timed.TimedEvent) :
    (Timed.handleTimedEvent db Timed.ExpirationEventType event =
        Timed.TimedResult.resumedExpiration ↔
      db.contact = some Timed.ContactStatus.active ∧
      ∃ s, db.activeSession = some s ∧ s.id = event.sessionID ∧
        db.runExpiresOn = some event.time) ∧
    (Timed.handleTimedEvent db Timed.TimeoutEventType event =
        Timed.TimedResult.resumedTimeout ↔
      db.contact = some Timed.ContactStatus.active ∧
      ∃ s, db.activeSession = some s ∧ s.id = event.sessionID ∧
        s.timeoutOn = some event.time) ∧
    ((db.activeSession = none ∨
        ∀ s, db.activeSession = some s → s.id ≠ event.sessionID) →
      Timed.handleTimedEvent db Timed.ExpirationEventType event =
          Timed.TimedResult.ignored ∧
      Timed.handleTimedEvent db Timed.TimeoutEventType event =
          Timed.TimedResult.ignored) ∧
    ((db.runExpiresOn = none ∨ db.runExpiresOn ≠ some event.time) →
      Timed.handleTimedEvent db Timed.ExpirationEventType event =
        Timed.TimedResult.ignored) ∧
    ((∀ s, db.activeSession = some s →
        s.timeoutOn = none ∨ s.timeoutOn ≠ some event.time) →
      Timed.handleTimedEvent db Timed.TimeoutEventType event =
        Timed.TimedResult.ignored) := by
  have he := timed_expiration_iff db event
  have ht := timed_timeout_iff db event
  refine ⟨he, ht, ?_, ?_, ?_⟩
  · intro h
    constructor
    · rcases timed_expiration_cases db event with h1 | h1
      · exact h1
      · exfalso
        obtain ⟨_, s, hs, hid, _⟩ := he.mp h1
        rcases h with h | h
        · rw [h] at hs; cases hs
        · exact h s hs hid
    · rcases timed_timeout_cases db event with h1 | h1
      · exact h1
      · exfalso
        obtain ⟨_, s, hs, hid, _⟩ := ht.mp h1
        rcases h with h | h
        · rw [h] at hs; cases hs
        · exact h s hs hid
  · intro h
    rcases timed_expiration_cases db event with h1 | h1
    · exact h1
    · exfalso
      obtain ⟨_, s, hs, hid, hexp⟩ := he.mp h1
      rcases h with h | h
      · rw [h] at hexp; cases hexp
      · exact h hexp
  · intro h
    rcases timed_timeout_cases db event with h1 | h1
    · exact h1
    · exfalso
      obtain ⟨_, s, hs, hid, hto⟩ := ht.mp h1
      rcases h s hs with h2 | h2
      · rw [h2] at hto; cases hto
      · exact h2 hto

/-- Witness for C2 at a concrete database state and event. -/
theorem C2_timed_event_checks_witness :
    (Timed.handleTimedEvent ⟨some Timed.ContactStatus.active, some ⟨7, some 5⟩, some 5⟩
        Timed.ExpirationEventType ⟨1, 2, 7, 3, 5⟩ =
        Timed.TimedResult.resumedExpiration ↔
      (⟨some Timed.ContactStatus.active, some ⟨7, some 5⟩, some 5⟩ :
          Timed.TimedDB).contact = some Timed.ContactStatus.active ∧
      ∃ s, (⟨some Timed.ContactStatus.active, some ⟨7, some 5⟩, some 5⟩ :
          Timed.TimedDB).activeSession = some s ∧
        s.id = (⟨1, 2, 7, 3, 5⟩ : Timed.TimedEvent).sessionID ∧
        (⟨some Timed.ContactStatus.active, some ⟨7, some 5⟩, some 5⟩ :
          Timed.TimedDB).runExpiresOn = some (⟨1, 2, 7, 3, 5⟩ : Timed.TimedEvent).time) ∧
    (Timed.handleTimedEvent ⟨some Timed.ContactStatus.active, some ⟨7, some 5⟩, some 5⟩
        Timed.TimeoutEventType ⟨1, 2, 7, 3, 5⟩ =
        Timed.TimedResult.resumedTimeout ↔
      (⟨some Timed.ContactStatus.active, some ⟨7, some 5⟩, some 5⟩ :
          Timed.TimedDB).contact = some Timed.ContactStatus.active ∧
      ∃ s, (⟨some Timed.ContactStatus.active, some ⟨7, some 5⟩, some 5⟩ :
          Timed.TimedDB).activeSession = some s ∧
        s.id = (⟨1, 2, 7, 3, 5⟩ : Timed.TimedEvent).sessionID ∧
        s.timeoutOn = some (⟨1, 2, 7, 3, 5⟩ : Timed.TimedEvent).time) ∧
    (((⟨some Timed.ContactStatus.active, some ⟨7, some 5⟩, some 5⟩ :
          Timed.TimedDB).activeSession = none ∨
        ∀ s, (⟨some Timed.ContactStatus.active, some ⟨7, some 5⟩, some 5⟩ :
            Timed.TimedDB).activeSession = some s →
          s.id ≠ (⟨1, 2, 7, 3, 5⟩ : Timed.TimedEvent).sessionID) →
      Timed.handleTimedEvent ⟨some Timed.ContactStatus.active, some ⟨7, some 5⟩, some 5⟩
          Timed.ExpirationEventType ⟨1, 2, 7, 3, 5⟩ = Timed.TimedResult.ignored ∧
      Timed.handleTimedEvent ⟨some Timed.ContactStatus.active, some ⟨7, some 5⟩, some 5⟩
          Timed.TimeoutEventType ⟨1, 2, 7, 3, 5⟩ = Timed.TimedResult.ignored) ∧
    (((⟨some Timed.ContactStatus.active, some ⟨7, some 5⟩, some 5⟩ :
          Timed.TimedDB).runExpiresOn = none ∨
        (⟨some Timed.ContactStatus.active, some ⟨7, some 5⟩, some 5⟩ :
          Timed.TimedDB).runExpiresOn ≠
          some (⟨1, 2, 7, 3, 5⟩ : Timed.TimedEvent).time) →
      Timed.handleTimedEvent ⟨some Timed.ContactStatus.active, some ⟨7, some 5⟩, some 5⟩
          Timed.ExpirationEventType ⟨1, 2, 7, 3, 5⟩ = Timed.TimedResult.ignored) ∧
    ((∀ s, (⟨some Timed.ContactStatus.active, some ⟨7, some 5⟩, some 5⟩ :
          Timed.TimedDB).activeSession = some s →
        s.timeoutOn = none ∨
        s.timeoutOn ≠ some (⟨1, 2, 7, 3, 5⟩ : Timed.TimedEvent).time) →
      Timed.handleTimedEvent ⟨some Timed.ContactStatus.active, some ⟨7, some 5⟩, some 5⟩
          Timed.TimeoutEventType ⟨1, 2, 7, 3, 5⟩ = Timed.TimedResult.ignored) :=
  C2_timed_event_checks ⟨some Timed.ContactStatus.active, some ⟨7, some 5⟩, some 5⟩
    ⟨1, 2, 7, 3, 5⟩

/-- Helper: the batches produced by `chunkContacts` concatenate to the
in-progress buffer followed by the remaining input. -/
theorem chunkContacts_join (l : List ContactID) :
    ∀ contacts : List ContactID,
      ((Starts.chunkContacts contacts l).map Prod.fst).join = contacts ++ l := by
  induction l with
  | nil =>
    intro contacts
    cases contacts with
    | nil => simp [Starts.chunkContacts]
    | cons a t => simp [Starts.chunkContacts]
  | cons c rest ih =>
    intro contacts
    by_cases h : contacts.length = Starts.startBatchSize <;>
      simp [Starts.chunkContacts, h, ih]

/-- Helper: every batch produced by `chunkContacts` holds at most
`startBatchSize` contact ids, provided the buffer does. -/
theorem chunkContacts_sizes (l : List ContactID) :
    ∀ contacts : List ContactID, contacts.length ≤ Starts.startBatchSize →
      ∀ b ∈ Starts.chunkContacts contacts l,
        b.1.length ≤ Starts.startBatchSize := by
  induction l with
  | nil =>
    intro contacts hle b hb
    by_cases h : 0 < contacts.length
    · simp [Starts.chunkContacts, h] at hb
      rw [hb]
      exact hle
    · simp [Starts.chunkContacts, h] at hb
  | cons c rest ih =>
    intro contacts hle b hb
    by_cases h : contacts.length = Starts.startBatchSize
    · simp only [Starts.chunkContacts, h, if_true, List.mem_cons] at hb
      rcases hb with hb | hb
      · rw [hb]
        exact le_of_eq h
      · exact ih [c] (by simp [Starts.startBatchSize]) b hb
    · have hlt : contacts.length < Starts.startBatchSize := lt_of_le_of_ne hle h
      simp only [Starts.chunkContacts, h, if_false] at hb
      exact ih (contacts ++ [c]) (by simp; omega) b hb

/-- Helper: when buffer or input is non-empty, `chunkContacts` produces a
non-empty batch list whose batches are all non-last except the final one. -/
theorem chunkContacts_split (l : List ContactID) :
    ∀ contacts : List ContactID, contacts ≠ [] ∨ l ≠ [] →
      ∃ front lastBatch, Starts.chunkContacts contacts l =
        front ++ [(lastBatch, true)] ∧ ∀ b ∈ front, b.2 = false := by
  induction l with
  | nil =>
    intro contacts h
    rcases h with h | h
    · refine ⟨[], contacts, ?_, by simp⟩
      have hpos : 0 < contacts.length := List.length_pos.mpr h
      simp [Starts.chunkContacts, hpos]
    · exact absurd rfl h
  | cons c rest ih =>
    intro contacts _
    by_cases hlen : contacts.length = Starts.startBatchSize
    · obtain ⟨front, lastBatch, heq, hfront⟩ := ih [c] (Or.inl (by simp))
      refine ⟨(contacts, false) :: front, lastBatch, ?_, ?_⟩
      · simp [Starts.chunkContacts, hlen, heq]
      · intro b hb
        rcases List.mem_cons.mp hb with rfl | hb
        · rfl
        · exact hfront b hb
    · obtain ⟨front, lastBatch, heq, hfront⟩ :=
        ih (contacts ++ [c]) (Or.inl (by simp))
      exact ⟨front, lastBatch, by simp [Starts.chunkContacts, hlen, heq], hfront⟩

/-- C3: for a non-empty deduplicated contact id set, the enqueued batch
tasks partition the set — every batch holds at most 100 ids, the batches
concatenate to exactly the input set (so each contact appears in exactly one
batch and the sizes sum to the set's size), and exactly one batch, the last
one queued, carries `is_last = true`. -/
theorem C3_batch_partition (start : Starts.FlowStart) (ids : List ContactID)
    (hne : ids ≠ []) (hnd : ids.Nodup) :
    (∀ t ∈ Starts.createFlowBatchTasks start ids,
      t.batch.contactIDs.length ≤ Starts.startBatchSize) ∧
    ((Starts.createFlowBatchTasks start ids).map
      (fun t => t.batch.contactIDs)).join = ids ∧
    ((Starts.createFlowBatchTasks start ids).map
      (fun t => t.batch.contactIDs.length)).sum = ids.length ∧
    (∀ c ∈ ids,
      (((Starts.createFlowBatchTasks start ids).map
        (fun t => t.batch.contactIDs)).join).count c = 1) ∧
    (Starts.createFlowBatchTasks start ids).countP
      (fun t => t.batch.isLast) = 1 ∧
    ((Starts.createFlowBatchTasks start ids).getLast?).map
      (fun t => t.batch.isLast) = some true := by
  obtain ⟨front, lastBatch, hsplit, hfront⟩ :=
    chunkContacts_split ids [] (Or.inr hne)
  have hmap : (Starts.createFlowBatchTasks start ids).map
      (fun t => t.batch.contactIDs) =
      (Starts.chunkContacts [] ids).map Prod.fst := by
    simp only [Starts.createFlowBatchTasks, List.map_map]
    rfl
  have hjoin : ((Starts.createFlowBatchTasks start ids).map
      (fun t => t.batch.contactIDs)).join = ids := by
    rw [hmap]
    simpa using chunkContacts_join ids []
  refine ⟨?_, hjoin, ?_, ?_, ?_, ?_⟩
  · intro t ht
    simp only [Starts.createFlowBatchTasks, List.mem_map] at ht
    obtain ⟨b, hb, rfl⟩ := ht
    exact chunkContacts_sizes ids [] (by simp [Starts.startBatchSize]) b hb
  · have hlen := congrArg List.length hjoin
    rw [List.length_join, List.map_map] at hlen
    simpa [Function.comp] using hlen
  · intro c hc
    rw [hjoin]
    exact List.count_eq_one_of_mem hnd hc
  · have hcp : (Starts.createFlowBatchTasks start ids).countP
        (fun t => t.batch.isLast) =
        (Starts.chunkContacts [] ids).countP (fun b => b.2) := by
      simp only [Starts.createFlowBatchTasks, List.countP_map]
      rfl
    have h0 : front.countP (fun b => b.2) = 0 :=
      List.countP_eq_zero.mpr (fun b hb => by simp [hfront b hb])
    rw [hcp, hsplit, List.countP_append, h0]
    simp
  · simp only [Starts.createFlowBatchTasks]
    rw [hsplit, List.map_append]
    simp [Starts.CreateBatch]

/-- Witness for C3 at a concrete start and contact set. -/
theorem C3_batch_partition_witness :
    (∀ t ∈ Starts.createFlowBatchTasks ⟨1, 2, "M"⟩ [5, 9],
      t.batch.contactIDs.length ≤ Starts.startBatchSize) ∧
    ((Starts.createFlowBatchTasks ⟨1, 2, "M"⟩ [5, 9]).map
      (fun t => t.batch.contactIDs)).join = [5, 9] ∧
    ((Starts.createFlowBatchTasks ⟨1, 2, "M"⟩ [5, 9]).map
      (fun t => t.batch.contactIDs.length)).sum = ([5, 9] : List ContactID).length ∧
    (∀ c ∈ ([5, 9] : List ContactID),
      (((Starts.createFlowBatchTasks ⟨1, 2, "M"⟩ [5, 9]).map
        (fun t => t.batch.contactIDs)).join).count c = 1) ∧
    (Starts.createFlowBatchTasks ⟨1, 2, "M"⟩ [5, 9]).countP
      (fun t => t.batch.isLast) = 1 ∧
    ((Starts.createFlowBatchTasks ⟨1, 2, "M"⟩ [5, 9]).getLast?).map
      (fun t => t.batch.isLast) = some true :=
  C3_batch_partition ⟨1, 2, "M"⟩ [5, 9] (by simp) (by simp)

/-- C4: every enqueued batch task has default priority, goes to the batch
queue when the total contact count exceeds 2 and to the handler queue when
it is at most 2, and has task type `start_ivr_flow_batch` exactly when the
start's flow type is voice, else `start_flow_batch`. -/
theorem C4_queue_and_task_type (start : Starts.FlowStart)
    (ids : List ContactID) :
    ∀ t ∈ Starts.createFlowBatchTasks start ids,
      t.priority = Starts.DefaultPriority ∧
      (2 < ids.length → t.queue = Starts.QueueName.batch) ∧
      (ids.length ≤ 2 → t.queue = Starts.QueueName.handler) ∧
      (start.flowType = FlowTypeVoice →
        t.taskType = Starts.StartIVRFlowBatchType) ∧
      (start.flowType ≠ FlowTypeVoice →
        t.taskType = Starts.StartFlowBatchType) := by
  intro t ht
  simp only [Starts.createFlowBatchTasks, List.mem_map] at ht
  obtain ⟨b, hb, rfl⟩ := ht
  refine ⟨rfl, ?_, ?_, ?_, ?_⟩
  · intro h
    have hn : ¬ ids.length ≤ 2 := Nat.not_le.mpr h
    simp [hn]
  · intro h
    simp [h]
  · intro h
    simp [h]
  · intro h
    simp [h]

/-- Witness for C4 at a concrete single-contact messaging start. -/
theorem C4_queue_and_task_type_witness :
    (⟨Starts.QueueName.handler, Starts.StartFlowBatchType, 2, ⟨1, [5], true, 1⟩,
        Starts.DefaultPriority⟩ : Starts.QueuedBatchTask).priority =
      Starts.DefaultPriority ∧
    (2 < ([5] : List ContactID).length →
      (⟨Starts.QueueName.handler, Starts.StartFlowBatchType, 2, ⟨1, [5], true, 1⟩,
          Starts.DefaultPriority⟩ : Starts.QueuedBatchTask).queue =
        Starts.QueueName.batch) ∧
    (([5] : List ContactID).length ≤ 2 →
      (⟨Starts.QueueName.handler, Starts.StartFlowBatchType, 2, ⟨1, [5], true, 1⟩,
          Starts.DefaultPriority⟩ : Starts.QueuedBatchTask).queue =
        Starts.QueueName.handler) ∧
    ((⟨1, 2, "M"⟩ : Starts.FlowStart).flowType = FlowTypeVoice →
      (⟨Starts.QueueName.handler, Starts.StartFlowBatchType, 2, ⟨1, [5], true, 1⟩,
          Starts.DefaultPriority⟩ : Starts.QueuedBatchTask).taskType =
        Starts.StartIVRFlowBatchType) ∧
    ((⟨1, 2, "M"⟩ : Starts.FlowStart).flowType ≠ FlowTypeVoice →
      (⟨Starts.QueueName.handler, Starts.StartFlowBatchType, 2, ⟨1, [5], true, 1⟩,
          Starts.DefaultPriority⟩ : Starts.QueuedBatchTask).taskType =
        Starts.StartFlowBatchType) :=
  C4_queue_and_task_type ⟨1, 2, "M"⟩ [5]
    ⟨Starts.QueueName.handler, Starts.StartFlowBatchType, 2, ⟨1, [5], true, 1⟩,
      Starts.DefaultPriority⟩ (by simp [Starts.createFlowBatchTasks,
        Starts.chunkContacts, Starts.CreateBatch, Starts.DefaultPriority,
        Starts.StartFlowBatchType, FlowTypeVoice, Starts.startBatchSize])

/-- C8: a flow start whose final contact set is empty enqueues no batch
tasks, is marked `starting` with contact count 0, and is then marked
`complete` inline, so its status passes pending → starting → complete. -/
theorem C8_empty_start (start : Starts.FlowStart) (s : Starts.StartState)
    (h : s.status = Starts.StartStatus.pending) :
    Starts.CreateFlowBatches start s [] =
      ([⟨Starts.StartStatus.starting, 0⟩, ⟨Starts.StartStatus.complete, 0⟩],
        []) ∧
    (s :: (Starts.CreateFlowBatches start s []).1).map (fun w => w.status) =
      [Starts.StartStatus.pending, Starts.StartStatus.starting,
        Starts.StartStatus.complete] := by
  refine ⟨rfl, ?_⟩
  simp [Starts.CreateFlowBatches, Starts.MarkStartStarted,
    Starts.MarkStartComplete, h]

/-- Witness for C8 at a concrete pending start. -/
theorem C8_empty_start_witness :
    Starts.CreateFlowBatches ⟨1, 2, "M"⟩ ⟨Starts.StartStatus.pending, 7⟩ [] =
      ([⟨Starts.StartStatus.starting, 0⟩, ⟨Starts.StartStatus.complete, 0⟩],
        []) ∧
    ((⟨Starts.StartStatus.pending, 7⟩ : Starts.StartState) ::
        (Starts.CreateFlowBatches ⟨1, 2, "M"⟩
          ⟨Starts.StartStatus.pending, 7⟩ []).1).map (fun w => w.status) =
      [Starts.StartStatus.pending, Starts.StartStatus.starting,
        Starts.StartStatus.complete] :=
  C8_empty_start ⟨1, 2, "M"⟩ ⟨Starts.StartStatus.pending, 7⟩ rfl

/-- C6 counterexample: on an infrastructure (non-query) error,
`handleFlowStart` *does* mark the start failed — the start does not remain
in its prior (pending) status, contrary to the claim; the error itself is
returned to the caller. -/
theorem C6_counterexample :
    (Starts.handleFlowStart ⟨Starts.StartStatus.pending, 0⟩
        (Except.error ⟨false⟩)).1.status = Starts.StartStatus.failed ∧
    (Starts.handleFlowStart ⟨Starts.StartStatus.pending, 0⟩
        (Except.error ⟨false⟩)).2.2 = some ⟨false⟩ ∧
    Starts.StartStatus.failed ≠ Starts.StartStatus.pending :=
  ⟨rfl, rfl, by decide⟩

/-- C6 amended: every failure of `CreateFlowBatches` marks the owning start
failed; a user contact-query error is then swallowed (the task returns
success) while an infrastructure error is returned to the caller. -/
theorem C6_error_discrimination (s : Starts.StartState)
    (e : Starts.StartError) :
    (e.isQueryError = true →
      Starts.handleFlowStart s (Except.error e) =
        (Starts.MarkStartFailed s, [], none)) ∧
    (e.isQueryError = false →
      Starts.handleFlowStart s (Except.error e) =
        (Starts.MarkStartFailed s, [], some e)) ∧
    (Starts.MarkStartFailed s).status = Starts.StartStatus.failed := by
  obtain ⟨b⟩ := e
  cases b <;> simp [Starts.handleFlowStart, Starts.MarkStartFailed]

/-- Witness for C6 amended at a concrete query error. -/
theorem C6_error_discrimination_witness :
    ((⟨true⟩ : Starts.StartError).isQueryError = true →
      Starts.handleFlowStart ⟨Starts.StartStatus.pending, 3⟩
          (Except.error ⟨true⟩) =
        (Starts.MarkStartFailed ⟨Starts.StartStatus.pending, 3⟩, [], none)) ∧
    ((⟨true⟩ : Starts.StartError).isQueryError = false →
      Starts.handleFlowStart ⟨Starts.StartStatus.pending, 3⟩
          (Except.error ⟨true⟩) =
        (Starts.MarkStartFailed ⟨Starts.StartStatus.pending, 3⟩, [],
          some ⟨true⟩)) ∧
    (Starts.MarkStartFailed ⟨Starts.StartStatus.pending, 3⟩).status =
      Starts.StartStatus.failed :=
  C6_error_discrimination ⟨Starts.StartStatus.pending, 3⟩ ⟨true⟩

/-- Helper: an element fixed by `f` is preserved positionally by `map f`. -/
theorem map_getElem_preserved {α : Type} (f : α → α) (l : List α) (i : Nat)
    (a : α) (ha : l[i]? = some a) (hfix : f a = a) :
    (l.map f)[i]? = some a := by
  simp [List.getElem?_map, ha, hfix]

/-- Helper: `exitSessionRunsSQL` leaves inactive runs unchanged. -/
theorem exitSessionRunsRow_inactive (sessionIDs : List SessionID)
    (exitType : Runs.ExitType) (now dbNow : Nat) (runStatus : Runs.RunStatus)
    (r : Runs.FlowRunRow) (h : r.isActive = false) :
    Runs.exitSessionRunsRow sessionIDs exitType now dbNow runStatus r = r := by
  simp [Runs.exitSessionRunsRow, h]

/-- Helper: `exitSessionsSQL` leaves non-waiting sessions unchanged. -/
theorem exitSessionsRow_not_waiting (sessionIDs : List SessionID) (now : Nat)
    (sessionStatus : Runs.SessionStatus) (s : Runs.FlowSessionRow)
    (h : s.status ≠ Runs.SessionStatusWaiting) :
    Runs.exitSessionsRow sessionIDs now sessionStatus s = s := by
  simp [Runs.exitSessionsRow, h]

/-- Helper: `interruptContactRunsSQL` leaves inactive runs unchanged. -/
theorem interruptContactRunsRow_inactive (sessionType : FlowType)
    (contactIDs : List ContactID) (now dbNow : Nat) (r : Runs.FlowRunRow)
    (h : r.isActive = false) :
    Runs.interruptContactRunsRow sessionType contactIDs now dbNow r = r := by
  simp [Runs.interruptContactRunsRow, h]

/-- Helper: `interruptContactSessionsSQL` leaves non-waiting sessions
unchanged. -/
theorem interruptContactSessionsRow_not_waiting (sessionType : FlowType)
    (contactIDs : List ContactID) (now : Nat) (s : Runs.FlowSessionRow)
    (h : s.status ≠ Runs.SessionStatusWaiting) :
    Runs.interruptContactSessionsRow sessionType contactIDs now s = s := by
  simp [Runs.interruptContactSessionsRow, h]

/-- C9: `ExitSessions` and `InterruptContactRuns` never mutate rows that are
already terminal: a run with `is_active = FALSE` and a session whose status
is not `'W'` come out of both operations unchanged, at their original
positions. -/
theorem C9_terminal_rows_never_mutated (sessionIDs : List SessionID)
    (exitType : Runs.ExitType) (now dbNow : Nat) (sessionType : FlowType)
    (contactIDs : List ContactID) (runs runs2 : List Runs.FlowRunRow)
    (sessions sess2 : List Runs.FlowSessionRow) :
    (Runs.ExitSessions runs sessions sessionIDs exitType now dbNow =
        Except.ok (runs2, sess2) →
      (∀ (i : Nat) (r : Runs.FlowRunRow), runs[i]? = some r →
        r.isActive = false → runs2[i]? = some r) ∧
      (∀ (i : Nat) (s : Runs.FlowSessionRow), sessions[i]? = some s →
        s.status ≠ Runs.SessionStatusWaiting → sess2[i]? = some s)) ∧
    (∀ (i : Nat) (r : Runs.FlowRunRow), runs[i]? = some r →
      r.isActive = false →
      (Runs.InterruptContactRuns runs sessions sessionType contactIDs now
        dbNow).1[i]? = some r) ∧
    (∀ (i : Nat) (s : Runs.FlowSessionRow), sessions[i]? = some s →
      s.status ≠ Runs.SessionStatusWaiting →
      (Runs.InterruptContactRuns runs sessions sessionType contactIDs now
        dbNow).2[i]? = some s) := by
  refine ⟨?_, ?_, ?_⟩
  · intro heq
    by_cases hemp : sessionIDs.isEmpty
    · simp [Runs.ExitSessions, hemp] at heq
      obtain ⟨h1, h2⟩ := heq
      subst h1
      subst h2
      exact ⟨fun _ _ h _ => h, fun _ _ h _ => h⟩
    · rcases hm : Runs.exitToRunStatusMap exitType with _ | rs
      · simp [Runs.ExitSessions, hemp, hm] at heq
      · rw [show Runs.ExitSessions runs sessions sessionIDs exitType now dbNow =
            Except.ok
              (runs.map (Runs.exitSessionRunsRow sessionIDs exitType now dbNow rs),
                sessions.map (Runs.exitSessionsRow sessionIDs now
                  ((Runs.exitToSessionStatusMap exitType).getD ""))) from by
          simp [Runs.ExitSessions, hemp, hm]] at heq
        simp only [Except.ok.injEq, Prod.mk.injEq] at heq
        obtain ⟨h1, h2⟩ := heq
        subst h1
        subst h2
        constructor
        · intro i r hr hina
          exact map_getElem_preserved _ runs i r hr
            (exitSessionRunsRow_inactive _ _ _ _ _ r hina)
        · intro i s hs hw
          exact map_getElem_preserved _ sessions i s hs
            (exitSessionsRow_not_waiting _ _ _ s hw)
  · intro i r hr hina
    by_cases hemp : contactIDs.isEmpty
    · rw [show (Runs.InterruptContactRuns runs sessions sessionType contactIDs
          now dbNow).1 = runs from by simp [Runs.InterruptContactRuns, hemp]]
      exact hr
    · rw [show (Runs.InterruptContactRuns runs sessions sessionType contactIDs
          now dbNow).1 = runs.map (Runs.interruptContactRunsRow sessionType
            contactIDs now dbNow) from by simp [Runs.InterruptContactRuns, hemp]]
      exact map_getElem_preserved _ runs i r hr
        (interruptContactRunsRow_inactive _ _ _ _ r hina)
  · intro i s hs hw
    by_cases hemp : contactIDs.isEmpty
    · rw [show (Runs.InterruptContactRuns runs sessions sessionType contactIDs
          now dbNow).2 = sessions from by simp [Runs.InterruptContactRuns, hemp]]
      exact hs
    · rw [show (Runs.InterruptContactRuns runs sessions sessionType contactIDs
          now dbNow).2 = sessions.map (Runs.interruptContactSessionsRow
            sessionType contactIDs now) from by
          simp [Runs.InterruptContactRuns, hemp]]
      exact map_getElem_preserved _ sessions i s hs
        (interruptContactSessionsRow_not_waiting _ _ _ s hw)

/-- Witness for C9 at concrete rows: one inactive completed run and one
completed session survive both operations unchanged. -/
theorem C9_terminal_rows_never_mutated_witness :
    (Runs.ExitSessions [⟨1, 4, 8, "M", false, "C", some "C", some 2, 2⟩]
        [⟨4, 8, "M", "C", some 2⟩] [4] "I" 9 9 =
        Except.ok
          ([⟨1, 4, 8, "M", false, "C", some "C", some 2, 2⟩],
            [⟨4, 8, "M", "C", some 2⟩]) →
      (∀ (i : Nat) (r : Runs.FlowRunRow),
        ([⟨1, 4, 8, "M", false, "C", some "C", some 2, 2⟩] :
          List Runs.FlowRunRow)[i]? = some r → r.isActive = false →
        ([⟨1, 4, 8, "M", false, "C", some "C", some 2, 2⟩] :
          List Runs.FlowRunRow)[i]? = some r) ∧
      (∀ (i : Nat) (s : Runs.FlowSessionRow), ([⟨4, 8, "M", "C", some 2⟩] :
          List Runs.FlowSessionRow)[i]? = some s →
        s.status ≠ Runs.SessionStatusWaiting →
        ([⟨4, 8, "M", "C", some 2⟩] :
          List Runs.FlowSessionRow)[i]? = some s)) ∧
    (∀ (i : Nat) (r : Runs.FlowRunRow),
      ([⟨1, 4, 8, "M", false, "C", some "C", some 2, 2⟩] :
        List Runs.FlowRunRow)[i]? = some r → r.isActive = false →
      (Runs.InterruptContactRuns
        [⟨1, 4, 8, "M", false, "C", some "C", some 2, 2⟩]
        [⟨4, 8, "M", "C", some 2⟩] "M" [8] 9 9).1[i]? = some r) ∧
    (∀ (i : Nat) (s : Runs.FlowSessionRow), ([⟨4, 8, "M", "C", some 2⟩] :
        List Runs.FlowSessionRow)[i]? = some s →
      s.status ≠ Runs.SessionStatusWaiting →
      (Runs.InterruptContactRuns
        [⟨1, 4, 8, "M", false, "C", some "C", some 2, 2⟩]
        [⟨4, 8, "M", "C", some 2⟩] "M" [8] 9 9).2[i]? = some s) :=
  C9_terminal_rows_never_mutated [4] "I" 9 9 "M" [8]
    [⟨1, 4, 8, "M", false, "C", some "C", some 2, 2⟩]
    [⟨1, 4, 8, "M", false, "C", some "C", some 2, 2⟩]
    [⟨4, 8, "M", "C", some 2⟩] [⟨4, 8, "M", "C", some 2⟩]

/-- Helper: the pending list only grows over `Apply`'s session loop. -/
theorem applyStep_pending_mono (queueOk : SessionID → Bool)
    (l : List Hooks.SessionMsgs) :
    ∀ acc m, m ∈ acc.2 →
      m ∈ (l.foldl (Hooks.applySessionStep queueOk) acc).2 := by
  induction l with
  | nil =>
    intro acc m hm
    simpa using hm
  | cons s rest ih =>
    intro acc m hm
    simp only [List.foldl_cons]
    apply ih
    simp only [Hooks.applySessionStep]
    split_ifs <;> simp [hm]

/-- C10: `SendMessagesHook.Apply` always returns nil, and for any session
whose courier queueing fails, that session's courier messages — as well as
its messages lacking a topup or channel — all end up on the pending list
that is written back to the database. -/
theorem C10_send_hook_never_fails (queueOk : SessionID → Bool)
    (sessions : List Hooks.SessionMsgs) (s : Hooks.SessionMsgs)
    (hs : s ∈ sessions) (hq : queueOk s.sessionID = false) :
    (Hooks.SendMessagesHookApply queueOk sessions).2 = none ∧
    (∀ m ∈ (Hooks.splitMsgs s.msgs).1,
      m ∈ (Hooks.SendMessagesHookApply queueOk sessions).1.2) ∧
    (∀ m ∈ (Hooks.splitMsgs s.msgs).2,
      m ∈ (Hooks.SendMessagesHookApply queueOk sessions).1.2) := by
  obtain ⟨l1, l2, rfl⟩ := List.append_of_mem hs
  refine ⟨rfl, ?_, ?_⟩
  · intro m hm
    have hne : ((Hooks.splitMsgs s.msgs).1.isEmpty) = false := by
      rcases hsp : (Hooks.splitMsgs s.msgs).1 with _ | ⟨a, t⟩
      · rw [hsp] at hm
        cases hm
      · rfl
    simp only [Hooks.SendMessagesHookApply, List.foldl_append,
      List.foldl_cons]
    apply applyStep_pending_mono
    simp [Hooks.applySessionStep, hne, hq, hm]
  · intro m hm
    simp only [Hooks.SendMessagesHookApply, List.foldl_append,
      List.foldl_cons]
    apply applyStep_pending_mono
    simp only [Hooks.applySessionStep]
    split_ifs <;> simp [hm]

/-- Witness for C10 at a concrete session whose courier queueing fails. -/
theorem C10_send_hook_never_fails_witness :
    (Hooks.SendMessagesHookApply (fun _ => false)
      [⟨1, [⟨10, true, true, false⟩, ⟨11, false, true, false⟩]⟩]).2 = none ∧
    (∀ m ∈ (Hooks.splitMsgs
        [⟨10, true, true, false⟩, ⟨11, false, true, false⟩]).1,
      m ∈ (Hooks.SendMessagesHookApply (fun _ => false)
        [⟨1, [⟨10, true, true, false⟩, ⟨11, false, true, false⟩]⟩]).1.2) ∧
    (∀ m ∈ (Hooks.splitMsgs
        [⟨10, true, true, false⟩, ⟨11, false, true, false⟩]).2,
      m ∈ (Hooks.SendMessagesHookApply (fun _ => false)
        [⟨1, [⟨10, true, true, false⟩, ⟨11, false, true, false⟩]⟩]).1.2) :=
  C10_send_hook_never_fails (fun _ => false)
    [⟨1, [⟨10, true, true, false⟩, ⟨11, false, true, false⟩]⟩]
    ⟨1, [⟨10, true, true, false⟩, ⟨11, false, true, false⟩]⟩
    (List.mem_singleton.mpr rfl) rfl

/-- Witness for C7 amended at a concrete failing handler and event. -/
theorem C7_head_requeue_witness :
    Handler.drainContactEvents (fun _ p => p != 0)
        [⟨"msg_event", 0, 0⟩, ⟨"msg_event", 1, 0⟩] =
      ⟨[⟨"msg_event", 0, 1⟩, ⟨"msg_event", 1, 0⟩], [⟨"msg_event", 0, 0⟩], [], true⟩ ∧
    (Handler.drainContactEvents (fun _ p => p != 0)
        [⟨"msg_event", 0, 1⟩, ⟨"msg_event", 1, 0⟩]).invoked.head? =
      some ⟨"msg_event", 0, 1⟩ :=
  C7_head_requeue (fun _ p => p != 0) ⟨"msg_event", 0, 0⟩
    [⟨"msg_event", 1, 0⟩] rfl (by decide)

end Mailroom
